import Mathlib

/-!
Shallow embedding of the LoanLink backend (Express + MongoDB server in
`index.js`).  Documents of the four Mongo collections are modelled as
association lists of field name / value pairs; the Mongo driver operations
used by the route handlers (`findOne`, `find`, `insertOne`, `insertMany`,
`updateOne`, `updateMany` with `$set`) are modelled over lists of documents,
and each route handler that the specification's claims mention is translated
into a pure state-passing function over the whole database.
-/

namespace LoanLink

/-- A BSON/JS value stored in a document field.  `Value.null` stands for the
JS `undefined` (a missing property read) and BSON null; `Value.time` is a
`Date`, identified with its tick count. -/
inductive Value where
  | null
  | str (s : String)
  | num (n : Int)
  | bool (b : Bool)
  | time (t : Nat)
deriving DecidableEq, Repr

/-- A Mongo document: an association list of field names to values. -/
abbrev Doc := List (String × Value)

/-- Read a field of a document (first occurrence of the key). -/
def getField : Doc → String → Option Value
  | [], _ => none
  | kv :: rest, k => if kv.1 = k then some kv.2 else getField rest k

/-- JS property access `doc.k`: a missing field reads as `undefined`. -/
def jsGet (d : Doc) (k : String) : Value :=
  (getField d k).getD Value.null

/-- Mongo `$set` of a single field: replace the field if present, append it
otherwise. -/
def setField : Doc → String → Value → Doc
  | [], k, v => [(k, v)]
  | kv :: rest, k, v => if kv.1 = k then (k, v) :: rest else kv :: setField rest k v

/-- Mongo `$set` with an update document: set each field in turn. -/
def applySet (d : Doc) (u : Doc) : Doc :=
  u.foldl (fun acc kv => setField acc kv.1 kv.2) d

/-- A Mongo equality filter `{k1: v1, ...}` matches a document when every
listed field is present with exactly the listed value. -/
def docMatches (d : Doc) (f : Doc) : Bool :=
  f.all fun kv => decide (getField d kv.1 = some kv.2)

/-- JS truthiness of a value, as used by `if (x)` and `x || y`. -/
def truthyV : Value → Bool
  | .null => false
  | .str s => decide (s ≠ "")
  | .num n => decide (n ≠ 0)
  | .bool b => b
  | .time _ => true

/-- JS template-string interpolation of a value (`${x}`). -/
def valueToString : Value → String
  | .null => "undefined"
  | .str s => s
  | .num n => toString n
  | .bool b => if b then "true" else "false"
  | .time t => toString t

/-- The `timestamp` field of a notification document, as used by the
descending sort of the notification listing route. -/
def timestampOf (d : Doc) : Nat :=
  match getField d "timestamp" with
  | some (.time t) => t
  | _ => 0

/-- Result of a Mongo `updateOne`/`updateMany`. -/
structure UpdateResult where
  acknowledged : Bool
  matchedCount : Nat
  modifiedCount : Nat
deriving DecidableEq, Repr

/-- Result of a Mongo `insertOne`. -/
structure InsertOneResult where
  acknowledged : Bool
  insertedId : Value
deriving DecidableEq, Repr

/-- Mongo `findOne`: the first document matching the filter. -/
def findOne (ds : List Doc) (f : Doc) : Option Doc :=
  ds.find? fun d => docMatches d f

/-- Mongo `updateOne` with `$set`: update the first document matching the
filter; `modifiedCount` counts an actual change only. -/
def updateOne : List Doc → Doc → Doc → UpdateResult × List Doc
  | [], _, _ => (⟨true, 0, 0⟩, [])
  | d :: ds, f, u =>
    if docMatches d f then
      (⟨true, 1, if applySet d u = d then 0 else 1⟩, applySet d u :: ds)
    else
      let r := updateOne ds f u
      (r.1, d :: r.2)

/-- Mongo `updateMany` with `$set`: update every document matching the
filter; `modifiedCount` counts actual changes only. -/
def updateMany : List Doc → Doc → Doc → UpdateResult × List Doc
  | [], _, _ => (⟨true, 0, 0⟩, [])
  | d :: ds, f, u =>
    let r := updateMany ds f u
    if docMatches d f then
      (⟨true, r.1.matchedCount + 1,
         r.1.modifiedCount + (if applySet d u = d then 0 else 1)⟩,
       applySet d u :: r.2)
    else
      (r.1, d :: r.2)

/-- The database: the collections of `LoanLinkDB` used by the handlers, in
declaration order. -/
structure DB where
  users : List Doc
  loans : List Doc
  applications : List Doc
  payments : List Doc
  notifications : List Doc
deriving DecidableEq, Repr

/-- Result of the user-creation route: either the duplicate short-circuit
response body or the insert result. -/
inductive CreateUserResult where
  | message (text : String)
  | inserted (result : InsertOneResult)
deriving DecidableEq, Repr

/-- `POST /users`: look up the body's email; if a user exists answer
`{message: 'User already exists'}` and insert nothing, else insert the user
(the driver assigns `_id := newId`). -/
def createUser (db : DB) (user : Doc) (newId : Value) : CreateUserResult × DB :=
  match findOne db.users [("email", jsGet user "email")] with
  | some _ => (.message "User already exists", db)
  | none =>
    (.inserted ⟨true, newId⟩,
     { db with users := db.users ++ [setField user "_id" newId] })

/-- The notification document broadcast to one user by `POST /loans`. -/
def loanNotification (u : Doc) (loan : Doc) (newId : Value) (now : Nat) : Doc :=
  [("userEmail", jsGet u "email"),
   ("message", Value.str ("New Loan Available: "
      ++ (if truthyV (jsGet loan "title") then valueToString (jsGet loan "title")
          else "Check it out!"))),
   ("type", Value.str "info"),
   ("path", Value.str ("/loans/" ++ valueToString newId)),
   ("timestamp", Value.time now),
   ("read", Value.bool false)]

/-- `POST /loans`: insert the loan (the driver assigns `_id := newId`), then
broadcast one notification per user with a single `insertMany`, swallowing
any failure of the broadcast (`insertManyFails` models the `catch` branch). -/
def createLoan (db : DB) (loan : Doc) (newId : Value) (now : Nat)
    (insertManyFails : Bool) : InsertOneResult × DB :=
  let result : InsertOneResult := ⟨true, newId⟩
  let db1 := { db with loans := db.loans ++ [setField loan "_id" newId] }
  if truthyV result.insertedId = true then
    if 0 < db1.users.length then
      if insertManyFails then (result, db1)
      else
        (result,
         { db1 with notifications := db1.notifications
            ++ db1.users.map fun u => loanNotification u loan newId now })
    else (result, db1)
  else (result, db1)

/-- `PATCH /applications/:id`: `$set` the request body on the matching
application; if a record was actually modified and the body's `status` field
is truthy, re-read the application and insert one decision notification. -/
def updateApplicationStatus (db : DB) (id : Value) (updates : Doc) (now : Nat) :
    UpdateResult × DB :=
  let r := updateOne db.applications [("_id", id)] updates
  let db1 := { db with applications := r.2 }
  if 0 < r.1.modifiedCount ∧ truthyV (jsGet updates "status") = true then
    match findOne r.2 [("_id", id)] with
    | some application =>
      let notification : Doc :=
        [("userEmail", jsGet application "userEmail"),
         ("message", Value.str ("Your loan application for "
            ++ valueToString (jsGet application "loanTitle") ++ " has been "
            ++ valueToString (jsGet updates "status") ++ ".")),
         ("type", Value.str (if jsGet updates "status" = Value.str "approved"
            then "success" else "error")),
         ("timestamp", Value.time now),
         ("read", Value.bool false)]
      (r.1, { db1 with notifications := db1.notifications ++ [notification] })
    | none => (r.1, db1)
  else (r.1, db1)

/-- The `$set` document of the payment-success route. -/
def paymentSet (transactionId : Value) (now : Nat) : Doc :=
  [("feeStatus", Value.str "paid"),
   ("transactionId", transactionId),
   ("paidAt", Value.time now)]

/-- `PATCH /payments/success/:loanId`: `$set` `feeStatus = 'paid'`, the
transaction id and `paidAt = new Date()` on the matching application. -/
def confirmPayment (db : DB) (loanId : Value) (transactionId : Value) (now : Nat) :
    UpdateResult × DB :=
  let r := updateOne db.applications [("_id", loanId)] (paymentSet transactionId now)
  (r.1, { db with applications := r.2 })

/-- `GET /notifications/:email`: the notifications whose `userEmail` is the
given email, sorted by `timestamp` descending. -/
def listForUser (db : DB) (email : String) : List Doc :=
  List.insertionSort (fun a b => timestampOf b ≤ timestampOf a)
    (db.notifications.filter fun d => docMatches d [("userEmail", Value.str email)])

/-- `PATCH /notifications/mark-all-read/:email`: `$set` `read = true` on every
notification of the email that is still unread. -/
def markAllRead (db : DB) (email : String) : UpdateResult × DB :=
  let r := updateMany db.notifications
    [("userEmail", Value.str email), ("read", Value.bool false)]
    [("read", Value.bool true)]
  (r.1, { db with notifications := r.2 })

/-- A signed session token: payload, issued-at and expiry instants (seconds),
and the signature over the payload and expiry.  `jwt.sign(user, secret,
{expiresIn: '7d'})` produces `exp = iat + 604800`. -/
structure Token where
  payload : Doc
  iat : Nat
  exp : Nat
  sig : Nat
deriving DecidableEq, Repr

/-- A model of the HMAC signature of the token's signed content. -/
def hashString (s : String) : Nat :=
  s.foldl (fun h c => h * 131 + c.toNat) 7

/-- Hash of a value, feeding the token signature. -/
def hashValue : Value → Nat
  | .null => 0
  | .str s => 5 * hashString s + 1
  | .num n => 5 * n.natAbs + (if 0 ≤ n then 2 else 3)
  | .bool b => if b then 19 else 23
  | .time t => 5 * t + 4

/-- Hash of a document, feeding the token signature. -/
def hashDoc (d : Doc) : Nat :=
  d.foldl (fun h kv => h * 1000003 + hashString kv.1 * 65599 + hashValue kv.2) 3

/-- The signature of a token over its payload and expiry, keyed by the
server-held secret. -/
def mkSig (secret : Nat) (payload : Doc) (exp : Nat) : Nat :=
  hashDoc payload * 2147483659 + exp * 65537 + secret

/-- `POST /jwt`: `jwt.sign(user, JWT_SECRET, {expiresIn: '7d'})` — a token
over the request body valid for 7 days (604800 seconds). -/
def jwtSign (secret : Nat) (claim : Doc) (now : Nat) : Token :=
  { payload := claim, iat := now, exp := now + 604800,
    sig := mkSig secret claim (now + 604800) }

/-- Outcome of `jwt.verify`: the decoded claim, or the single
invalid-or-expired error that the middleware turns into a 401. -/
inductive VerifyResult where
  | ok (claim : Doc)
  | invalidOrExpired
deriving DecidableEq, Repr

/-- `jwt.verify(token, JWT_SECRET)` at instant `now`: checks the signature,
then fails exactly when `now` has reached `exp`. -/
def jwtVerify (secret : Nat) (t : Token) (now : Nat) : VerifyResult :=
  if t.sig = mkSig secret t.payload t.exp then
    if now < t.exp then .ok t.payload else .invalidOrExpired
  else .invalidOrExpired

/-- Reading the field just written by `setField`. -/
theorem getField_setField_self (d : Doc) (k : String) (v : Value) :
    getField (setField d k v) k = some v := by
  induction d with
  | nil => simp [setField, getField]
  | cons kv rest ih =>
    by_cases h : kv.1 = k
    · simp [setField, h, getField]
    · simp [setField, h, getField, ih]

/-- Reading another field than the one written by `setField`. -/
theorem getField_setField_ne (d : Doc) (k k' : String) (v : Value) (h : k' ≠ k) :
    getField (setField d k v) k' = getField d k' := by
  induction d with
  | nil => simp [setField, getField, Ne.symm h]
  | cons kv rest ih =>
    by_cases hk : kv.1 = k
    · simp [setField, hk, getField, Ne.symm h]
    · simp only [setField, if_neg hk, getField]
      by_cases hk' : kv.1 = k'
      · simp [hk']
      · simp [hk', ih]

/-- `applySet` leaves fields outside the update document unchanged. -/
theorem getField_applySet_notMem (d : Doc) (u : Doc) (k : String)
    (h : ∀ kv ∈ u, kv.1 ≠ k) :
    getField (applySet d u) k = getField d k := by
  induction u generalizing d with
  | nil => rfl
  | cons kv rest ih =>
    have h1 : kv.1 ≠ k := h kv (List.mem_cons_self _ _)
    have h2 : ∀ kv' ∈ rest, kv'.1 ≠ k := fun kv' hm => h kv' (List.mem_cons_of_mem _ hm)
    show getField (applySet (setField d kv.1 kv.2) rest) k = getField d k
    rw [ih (setField d kv.1 kv.2) h2, getField_setField_ne _ _ _ _ (Ne.symm h1)]

/-- Unfolding an equality filter into fieldwise conditions. -/
theorem docMatches_iff (d : Doc) (f : Doc) :
    docMatches d f = true ↔ ∀ kv ∈ f, getField d kv.1 = some kv.2 := by
  simp [docMatches]

/-- A first-match lookup that fails means no document matches. -/
theorem findOne_eq_none (ds : List Doc) (f : Doc) :
    findOne ds f = none ↔ ∀ d ∈ ds, docMatches d f = false := by
  simp [findOne, List.find?_eq_none]

/-- Unfolding a first-match lookup one document at a time. -/
theorem findOne_cons (a : Doc) (t : List Doc) (f : Doc) :
    findOne (a :: t) f = if docMatches a f then some a else findOne t f := by
  by_cases h : docMatches a f = true <;> simp [findOne, List.find?_cons, h]

/-- A found document matches the filter. -/
theorem findOne_some_matches (ds : List Doc) (f : Doc) (d : Doc)
    (h : findOne ds f = some d) : docMatches d f = true := by
  have h' : List.find? (fun x => docMatches x f) ds = some d := h
  exact List.find?_some (p := fun x => docMatches x f) h'

/-- First-match lookup over a list whose prefix has no match. -/
theorem findOne_append_cons (pre post : List Doc) (f d : Doc)
    (hpre : ∀ x ∈ pre, docMatches x f = false) (hd : docMatches d f = true) :
    findOne (pre ++ d :: post) f = some d := by
  induction pre with
  | nil => rw [List.nil_append, findOne_cons, if_pos hd]
  | cons a t ih =>
    have ha := hpre a (List.mem_cons_self _ _)
    rw [List.cons_append, findOne_cons, if_neg (by simp [ha])]
    exact ih fun x hx => hpre x (List.mem_cons_of_mem _ hx)

/-- `updateOne` on a collection with no matching document is the identity
with acknowledged zero counts. -/
theorem updateOne_not_matches (ds : List Doc) (f u : Doc)
    (h : ∀ d ∈ ds, docMatches d f = false) :
    updateOne ds f u = (⟨true, 0, 0⟩, ds) := by
  induction ds with
  | nil => rfl
  | cons a t ih =>
    have ha := h a (List.mem_cons_self _ _)
    simp [updateOne, ha, ih fun d hd => h d (List.mem_cons_of_mem _ hd)]

/-- `updateOne` rewrites exactly the first matching document, in place, and
reports whether the `$set` actually changed it. -/
theorem updateOne_of_findOne_some (ds : List Doc) (f u d : Doc)
    (h : findOne ds f = some d) :
    ∃ pre post, ds = pre ++ d :: post ∧ (∀ x ∈ pre, docMatches x f = false) ∧
      updateOne ds f u =
        (⟨true, 1, if applySet d u = d then 0 else 1⟩, pre ++ applySet d u :: post) := by
  induction ds with
  | nil => simp [findOne] at h
  | cons a t ih =>
    by_cases ha : docMatches a f = true
    · rw [findOne_cons, if_pos ha] at h
      injection h with h
      subst h
      exact ⟨[], t, rfl, by simp, by simp [updateOne, ha]⟩
    · rw [findOne_cons, if_neg ha] at h
      obtain ⟨pre, post, hds, hpre, hupd⟩ := ih h
      subst hds
      refine ⟨a :: pre, post, rfl, ?_, ?_⟩
      · intro x hx
        rcases List.mem_cons.mp hx with rfl | hx
        · exact Bool.eq_false_iff.mpr ha
        · exact hpre x hx
      · simp [updateOne, Bool.eq_false_iff.mpr ha, hupd]

/-- `updateMany` on a collection with no matching document is the identity
with acknowledged zero counts. -/
theorem updateMany_not_matches (ds : List Doc) (f u : Doc)
    (h : ∀ d ∈ ds, docMatches d f = false) :
    updateMany ds f u = (⟨true, 0, 0⟩, ds) := by
  induction ds with
  | nil => rfl
  | cons a t ih =>
    have ha := h a (List.mem_cons_self _ _)
    simp [updateMany, ha, ih fun d hd => h d (List.mem_cons_of_mem _ hd)]

/-- After mark-all-read, no notification of the email is still unread: every
document of the updated collection fails the unread filter. -/
theorem updateMany_markRead_post (ds : List Doc) (email : String) (d : Doc)
    (hd : d ∈ (updateMany ds [("userEmail", Value.str email), ("read", Value.bool false)]
        [("read", Value.bool true)]).2) :
    docMatches d [("userEmail", Value.str email), ("read", Value.bool false)] = false := by
  induction ds with
  | nil => simp [updateMany] at hd
  | cons a t ih =>
    by_cases ha : docMatches a
        [("userEmail", Value.str email), ("read", Value.bool false)] = true
    · rw [show (updateMany (a :: t) [("userEmail", Value.str email),
          ("read", Value.bool false)] [("read", Value.bool true)]).2
          = applySet a [("read", Value.bool true)]
            :: (updateMany t [("userEmail", Value.str email),
                ("read", Value.bool false)] [("read", Value.bool true)]).2 by
          simp [updateMany, ha]] at hd
      rcases List.mem_cons.mp hd with rfl | hd
      · show docMatches (setField a "read" (Value.bool true)) _ = false
        simp [docMatches, getField_setField_self]
      · exact ih hd
    · rw [show (updateMany (a :: t) [("userEmail", Value.str email),
          ("read", Value.bool false)] [("read", Value.bool true)]).2
          = a :: (updateMany t [("userEmail", Value.str email),
              ("read", Value.bool false)] [("read", Value.bool true)]).2 by
          simp [updateMany, Bool.eq_false_iff.mpr ha]] at hd
      rcases List.mem_cons.mp hd with rfl | hd
      · exact Bool.eq_false_iff.mpr ha
      · exact ih hd

/-- The response of the status-update route is the raw update result in
every branch. -/
theorem updateApplicationStatus_fst (db : DB) (id : Value) (updates : Doc) (now : Nat) :
    (updateApplicationStatus db id updates now).1
      = (updateOne db.applications [("_id", id)] updates).1 := by
  simp only [updateApplicationStatus]
  split
  · split <;> rfl
  · rfl

/-- The applications collection after the status-update route is the raw
`updateOne` output in every branch. -/
theorem updateApplicationStatus_applications (db : DB) (id : Value) (updates : Doc)
    (now : Nat) :
    (updateApplicationStatus db id updates now).2.applications
      = (updateOne db.applications [("_id", id)] updates).2 := by
  simp only [updateApplicationStatus]
  split
  · split <;> rfl
  · rfl

instance : IsTotal Doc fun a b => timestampOf b ≤ timestampOf a :=
  ⟨fun a b => Nat.le_total (timestampOf b) (timestampOf a)⟩

instance : IsTrans Doc fun a b => timestampOf b ≤ timestampOf a :=
  ⟨fun _ _ _ hab hbc => Nat.le_trans hbc hab⟩

/-- C2: verifying a freshly issued token succeeds with the original claim at
any instant strictly before its expiry, and fails with the single
invalid-or-expired error at or after expiry. -/
theorem jwtVerify_jwtSign (secret : Nat) (claim : Doc) (issuedAt now : Nat) :
    (now < (jwtSign secret claim issuedAt).exp →
      jwtVerify secret (jwtSign secret claim issuedAt) now = VerifyResult.ok claim) ∧
    ((jwtSign secret claim issuedAt).exp ≤ now →
      jwtVerify secret (jwtSign secret claim issuedAt) now = VerifyResult.invalidOrExpired) := by
  constructor
  · intro h
    simp only [jwtSign] at h
    simp [jwtVerify, jwtSign, h]
  · intro h
    simp only [jwtSign] at h
    simp [jwtVerify, jwtSign, Nat.not_lt.mpr h]

/-- Witness for C2 at a concrete secret, claim and pair of instants. -/
theorem jwtVerify_jwtSign_witness :
    (3 < (jwtSign 99 [("email", Value.str "a@b.com")] 0).exp ∧
      jwtVerify 99 (jwtSign 99 [("email", Value.str "a@b.com")] 0) 3
        = VerifyResult.ok [("email", Value.str "a@b.com")]) ∧
    ((jwtSign 99 [("email", Value.str "a@b.com")] 0).exp ≤ 604800 ∧
      jwtVerify 99 (jwtSign 99 [("email", Value.str "a@b.com")] 0) 604800
        = VerifyResult.invalidOrExpired) :=
  ⟨⟨by decide, (jwtVerify_jwtSign 99 [("email", Value.str "a@b.com")] 0 3).1 (by decide)⟩,
   ⟨by decide, (jwtVerify_jwtSign 99 [("email", Value.str "a@b.com")] 0 604800).2 (by decide)⟩⟩

/-- C4: updating the status of an application id that matches nothing
reports an acknowledged result with zero matched and zero modified counts
and leaves the whole store — notifications included — unchanged. -/
theorem updateStatus_unknown (db : DB) (id : Value) (updates : Doc) (now : Nat)
    (h : ∀ d ∈ db.applications, docMatches d [("_id", id)] = false) :
    (updateApplicationStatus db id updates now).1 = ⟨true, 0, 0⟩ ∧
    (updateApplicationStatus db id updates now).2 = db := by
  have hu := updateOne_not_matches db.applications [("_id", id)] updates h
  refine ⟨?_, ?_⟩
  · rw [updateApplicationStatus_fst, hu]
  · simp [updateApplicationStatus, hu]

/-- Witness for C4 on a store holding one application with another id. -/
theorem updateStatus_unknown_witness :
    (∀ d ∈ (DB.mk [] [] [[("_id", Value.str "a1"), ("status", Value.str "pending")]] []
        []).applications, docMatches d [("_id", Value.str "zz")] = false) ∧
    (updateApplicationStatus
        (DB.mk [] [] [[("_id", Value.str "a1"), ("status", Value.str "pending")]] [] [])
        (Value.str "zz") [("status", Value.str "approved")] 5).1 = ⟨true, 0, 0⟩ ∧
    (updateApplicationStatus
        (DB.mk [] [] [[("_id", Value.str "a1"), ("status", Value.str "pending")]] [] [])
        (Value.str "zz") [("status", Value.str "approved")] 5).2
      = DB.mk [] [] [[("_id", Value.str "a1"), ("status", Value.str "pending")]] [] [] :=
  ⟨by decide,
   updateStatus_unknown
     (DB.mk [] [] [[("_id", Value.str "a1"), ("status", Value.str "pending")]] [] [])
     (Value.str "zz") [("status", Value.str "approved")] 5 (by decide)⟩

/-- C5: confirming payment on an existing application makes its stored
record read back with feeStatus `paid`, the supplied transaction id, and a
paidAt stamp that is set and not earlier than the call instant. -/
theorem confirmPayment_paid (db : DB) (id txId : Value) (now : Nat) (app : Doc)
    (hfind : findOne db.applications [("_id", id)] = some app) :
    ∃ app2,
      findOne (confirmPayment db id txId now).2.applications [("_id", id)] = some app2 ∧
      getField app2 "feeStatus" = some (Value.str "paid") ∧
      getField app2 "transactionId" = some txId ∧
      ∃ t, getField app2 "paidAt" = some (Value.time t) ∧ now ≤ t := by
  obtain ⟨pre, post, hds, hpre, hupd⟩ :=
    updateOne_of_findOne_some db.applications [("_id", id)] (paymentSet txId now) app hfind
  have hid : getField app "_id" = some id := by
    have hm := (docMatches_iff _ _).mp (findOne_some_matches _ _ _ hfind)
    simpa using hm ("_id", id) (by simp)
  have h2 : applySet app (paymentSet txId now)
      = setField (setField (setField app "feeStatus" (Value.str "paid"))
          "transactionId" txId) "paidAt" (Value.time now) := rfl
  have hfee : getField (applySet app (paymentSet txId now)) "feeStatus"
      = some (Value.str "paid") := by
    rw [h2, getField_setField_ne _ _ _ _ (by decide),
        getField_setField_ne _ _ _ _ (by decide), getField_setField_self]
  have htx : getField (applySet app (paymentSet txId now)) "transactionId" = some txId := by
    rw [h2, getField_setField_ne _ _ _ _ (by decide), getField_setField_self]
  have hpaid : getField (applySet app (paymentSet txId now)) "paidAt"
      = some (Value.time now) := by
    rw [h2, getField_setField_self]
  have hmatch2 : docMatches (applySet app (paymentSet txId now)) [("_id", id)] = true := by
    rw [docMatches_iff]
    intro kv hkv
    rw [List.mem_singleton] at hkv
    subst hkv
    show getField (applySet app (paymentSet txId now)) "_id" = some id
    rw [h2, getField_setField_ne _ _ _ _ (by decide),
        getField_setField_ne _ _ _ _ (by decide),
        getField_setField_ne _ _ _ _ (by decide), hid]
  have happs : (confirmPayment db id txId now).2.applications
      = pre ++ applySet app (paymentSet txId now) :: post := by
    show (updateOne db.applications [("_id", id)] (paymentSet txId now)).2 = _
    rw [hupd]
  exact ⟨applySet app (paymentSet txId now),
    by rw [happs]; exact findOne_append_cons pre post _ _ hpre hmatch2,
    hfee, htx, now, hpaid, Nat.le_refl now⟩

/-- Witness for C5 on a store holding one pending application. -/
theorem confirmPayment_paid_witness :
    findOne (DB.mk [] [] [[("_id", Value.str "a1"), ("userEmail", Value.str "u@x.com"),
        ("status", Value.str "pending")]] [] []).applications [("_id", Value.str "a1")]
      = some [("_id", Value.str "a1"), ("userEmail", Value.str "u@x.com"),
          ("status", Value.str "pending")] ∧
    ∃ app2,
      findOne (confirmPayment
          (DB.mk [] [] [[("_id", Value.str "a1"), ("userEmail", Value.str "u@x.com"),
            ("status", Value.str "pending")]] [] [])
          (Value.str "a1") (Value.str "tx_123") 42).2.applications [("_id", Value.str "a1")]
        = some app2 ∧
      getField app2 "feeStatus" = some (Value.str "paid") ∧
      getField app2 "transactionId" = some (Value.str "tx_123") ∧
      ∃ t, getField app2 "paidAt" = some (Value.time t) ∧ 42 ≤ t :=
  ⟨by decide,
   confirmPayment_paid
     (DB.mk [] [] [[("_id", Value.str "a1"), ("userEmail", Value.str "u@x.com"),
       ("status", Value.str "pending")]] [] [])
     (Value.str "a1") (Value.str "tx_123") 42
     [("_id", Value.str "a1"), ("userEmail", Value.str "u@x.com"),
       ("status", Value.str "pending")] (by decide)⟩

/-- C6: creating a user whose email already exists answers the
`User already exists` message and leaves the whole store — in particular the
record stored under that email — unchanged. -/
theorem createUser_existing (db : DB) (user : Doc) (newId : Value) (existing : Doc)
    (h : findOne db.users [("email", jsGet user "email")] = some existing) :
    createUser db user newId = (CreateUserResult.message "User already exists", db) := by
  simp only [createUser, h]

/-- Witness for C6 on a store already holding the email. -/
theorem createUser_existing_witness :
    findOne (DB.mk [[("email", Value.str "u@x.com"), ("role", Value.str "borrower")]]
        [] [] [] []).users
        [("email", jsGet [("email", Value.str "u@x.com"), ("name", Value.str "U")] "email")]
      = some [("email", Value.str "u@x.com"), ("role", Value.str "borrower")] ∧
    createUser (DB.mk [[("email", Value.str "u@x.com"), ("role", Value.str "borrower")]]
        [] [] [] [])
        [("email", Value.str "u@x.com"), ("name", Value.str "U")] (Value.str "id9")
      = (CreateUserResult.message "User already exists",
         DB.mk [[("email", Value.str "u@x.com"), ("role", Value.str "borrower")]]
           [] [] [] []) :=
  ⟨by decide,
   createUser_existing
     (DB.mk [[("email", Value.str "u@x.com"), ("role", Value.str "borrower")]] [] [] [] [])
     [("email", Value.str "u@x.com"), ("name", Value.str "U")] (Value.str "id9")
     [("email", Value.str "u@x.com"), ("role", Value.str "borrower")] (by decide)⟩

/-- C7: when the notification broadcast fails, the loan-creation call still
answers the acknowledged insert result for the loan write, the created loan
is in the store, and response and loans collection agree with a run whose
broadcast succeeds. -/
theorem createLoan_fanout_failure (db : DB) (loan : Doc) (newId : Value) (now : Nat) :
    (createLoan db loan newId now true).1 = ⟨true, newId⟩ ∧
    (createLoan db loan newId now true).2.loans = db.loans ++ [setField loan "_id" newId] ∧
    (createLoan db loan newId now true).1 = (createLoan db loan newId now false).1 ∧
    (createLoan db loan newId now true).2.loans
      = (createLoan db loan newId now false).2.loans := by
  have h1 : ∀ b, (createLoan db loan newId now b).1 = ⟨true, newId⟩ := by
    intro b
    simp only [createLoan]
    split
    · split
      · split <;> rfl
      · rfl
    · rfl
  have h2 : ∀ b, (createLoan db loan newId now b).2.loans
      = db.loans ++ [setField loan "_id" newId] := by
    intro b
    simp only [createLoan]
    split
    · split
      · split <;> rfl
      · rfl
    · rfl
  exact ⟨h1 true, h2 true, (h1 true).trans (h1 false).symm, (h2 true).trans (h2 false).symm⟩

/-- C8: the notification listing returns exactly the notifications whose
recipient field is the email — the same multiset as the store's matching
records — sorted newest first by timestamp. -/
theorem listForUser_spec (db : DB) (email : String) :
    (listForUser db email).Perm
      (db.notifications.filter fun d => docMatches d [("userEmail", Value.str email)]) ∧
    (listForUser db email).Sorted (fun a b => timestampOf b ≤ timestampOf a) ∧
    ∀ d, d ∈ listForUser db email ↔
      d ∈ db.notifications ∧ getField d "userEmail" = some (Value.str email) := by
  refine ⟨List.perm_insertionSort _ _, List.sorted_insertionSort _ _, ?_⟩
  intro d
  rw [listForUser, (List.perm_insertionSort _ _).mem_iff, List.mem_filter]
  simp [docMatches]

/-- C9: mark-all-read is idempotent — an immediately repeated call matches
and modifies zero records and returns the notification store unchanged. -/
theorem markAllRead_idem (db : DB) (email : String) :
    (markAllRead (markAllRead db email).2 email).1 = ⟨true, 0, 0⟩ ∧
    (markAllRead (markAllRead db email).2 email).2 = (markAllRead db email).2 := by
  have key : ∀ db1 : DB,
      (∀ d ∈ db1.notifications,
        docMatches d [("userEmail", Value.str email), ("read", Value.bool false)] = false) →
      markAllRead db1 email = (⟨true, 0, 0⟩, db1) := by
    intro db1 h
    have hu := updateMany_not_matches db1.notifications
      [("userEmail", Value.str email), ("read", Value.bool false)]
      [("read", Value.bool true)] h
    simp only [markAllRead, hu]
  have hpost : ∀ d ∈ (markAllRead db email).2.notifications,
      docMatches d [("userEmail", Value.str email), ("read", Value.bool false)] = false :=
    fun d hd => updateMany_markRead_post db.notifications email d hd
  rw [key (markAllRead db email).2 hpost]
  exact ⟨rfl, rfl⟩

/-- C10: confirming payment only rewrites the three fee fields of the single
matching application; every other field of that record, every other
application, and every other collection are unchanged. -/
theorem confirmPayment_frame (db : DB) (id txId : Value) (now : Nat) (app : Doc)
    (hfind : findOne db.applications [("_id", id)] = some app) :
    ∃ pre post,
      db.applications = pre ++ app :: post ∧
      (confirmPayment db id txId now).2.applications
        = pre ++ applySet app (paymentSet txId now) :: post ∧
      (∀ k, k ≠ "feeStatus" → k ≠ "transactionId" → k ≠ "paidAt" →
        getField (applySet app (paymentSet txId now)) k = getField app k) ∧
      (confirmPayment db id txId now).2.users = db.users ∧
      (confirmPayment db id txId now).2.loans = db.loans ∧
      (confirmPayment db id txId now).2.payments = db.payments ∧
      (confirmPayment db id txId now).2.notifications = db.notifications := by
  obtain ⟨pre, post, hds, hpre, hupd⟩ :=
    updateOne_of_findOne_some db.applications [("_id", id)] (paymentSet txId now) app hfind
  refine ⟨pre, post, hds, ?_, ?_, rfl, rfl, rfl, rfl⟩
  · show (updateOne db.applications [("_id", id)] (paymentSet txId now)).2 = _
    rw [hupd]
  · intro k h1 h2 h3
    refine getField_applySet_notMem app (paymentSet txId now) k ?_
    intro kv hkv
    simp only [paymentSet, List.mem_cons, List.not_mem_nil, or_false] at hkv
    rcases hkv with rfl | rfl | rfl
    · exact Ne.symm h1
    · exact Ne.symm h2
    · exact Ne.symm h3

/-- Witness for C10 on a store holding two applications; the hypothesis is
discharged at the first one. -/
theorem confirmPayment_frame_witness :
    findOne (DB.mk [] [] [[("_id", Value.str "a1"), ("status", Value.str "pending")],
        [("_id", Value.str "a2"), ("status", Value.str "pending")]] [] []).applications
        [("_id", Value.str "a1")]
      = some [("_id", Value.str "a1"), ("status", Value.str "pending")] ∧
    ∃ pre post,
      (DB.mk [] [] [[("_id", Value.str "a1"), ("status", Value.str "pending")],
        [("_id", Value.str "a2"), ("status", Value.str "pending")]] [] []).applications
        = pre ++ [("_id", Value.str "a1"), ("status", Value.str "pending")] :: post ∧
      (confirmPayment (DB.mk [] [] [[("_id", Value.str "a1"), ("status", Value.str "pending")],
          [("_id", Value.str "a2"), ("status", Value.str "pending")]] [] [])
          (Value.str "a1") (Value.str "tx_9") 11).2.applications
        = pre ++ applySet [("_id", Value.str "a1"), ("status", Value.str "pending")]
            (paymentSet (Value.str "tx_9") 11) :: post ∧
      (∀ k, k ≠ "feeStatus" → k ≠ "transactionId" → k ≠ "paidAt" →
        getField (applySet [("_id", Value.str "a1"), ("status", Value.str "pending")]
          (paymentSet (Value.str "tx_9") 11)) k
          = getField [("_id", Value.str "a1"), ("status", Value.str "pending")] k) ∧
      (confirmPayment (DB.mk [] [] [[("_id", Value.str "a1"), ("status", Value.str "pending")],
          [("_id", Value.str "a2"), ("status", Value.str "pending")]] [] [])
          (Value.str "a1") (Value.str "tx_9") 11).2.users
        = (DB.mk [] [] [[("_id", Value.str "a1"), ("status", Value.str "pending")],
            [("_id", Value.str "a2"), ("status", Value.str "pending")]] [] [] : DB).users ∧
      (confirmPayment (DB.mk [] [] [[("_id", Value.str "a1"), ("status", Value.str "pending")],
          [("_id", Value.str "a2"), ("status", Value.str "pending")]] [] [])
          (Value.str "a1") (Value.str "tx_9") 11).2.loans
        = (DB.mk [] [] [[("_id", Value.str "a1"), ("status", Value.str "pending")],
            [("_id", Value.str "a2"), ("status", Value.str "pending")]] [] [] : DB).loans ∧
      (confirmPayment (DB.mk [] [] [[("_id", Value.str "a1"), ("status", Value.str "pending")],
          [("_id", Value.str "a2"), ("status", Value.str "pending")]] [] [])
          (Value.str "a1") (Value.str "tx_9") 11).2.payments
        = (DB.mk [] [] [[("_id", Value.str "a1"), ("status", Value.str "pending")],
            [("_id", Value.str "a2"), ("status", Value.str "pending")]] [] [] : DB).payments ∧
      (confirmPayment (DB.mk [] [] [[("_id", Value.str "a1"), ("status", Value.str "pending")],
          [("_id", Value.str "a2"), ("status", Value.str "pending")]] [] [])
          (Value.str "a1") (Value.str "tx_9") 11).2.notifications
        = (DB.mk [] [] [[("_id", Value.str "a1"), ("status", Value.str "pending")],
            [("_id", Value.str "a2"), ("status", Value.str "pending")]] [] [] : DB).notifications :=
  ⟨by decide,
   confirmPayment_frame
     (DB.mk [] [] [[("_id", Value.str "a1"), ("status", Value.str "pending")],
       [("_id", Value.str "a2"), ("status", Value.str "pending")]] [] [])
     (Value.str "a1") (Value.str "tx_9") 11
     [("_id", Value.str "a1"), ("status", Value.str "pending")] (by decide)⟩

/-- The decision notification inserted by the status-update route, expressed
over the application record as stored before the update (the update only
touches `status`, so recipient and loan title agree with the re-read). -/
def decisionNotification (app : Doc) (s : String) (now : Nat) : Doc :=
  [("userEmail", jsGet app "userEmail"),
   ("message", Value.str ("Your loan application for "
      ++ valueToString (jsGet app "loanTitle") ++ " has been " ++ s ++ ".")),
   ("type", Value.str (if s = "approved" then "success" else "error")),
   ("timestamp", Value.time now),
   ("read", Value.bool false)]

/-- Unfolding the status-update route when the update matched, modified, and
carries a truthy `status`, and the re-read finds the application. -/
theorem updateApplicationStatus_eq (db : DB) (id : Value) (updates : Doc) (now : Nat)
    (r : UpdateResult) (apps : List Doc) (application : Doc)
    (hupd : updateOne db.applications [("_id", id)] updates = (r, apps))
    (hmod : 0 < r.modifiedCount)
    (htr : truthyV (jsGet updates "status") = true)
    (hfind : findOne apps [("_id", id)] = some application) :
    updateApplicationStatus db id updates now
      = (r, { db with
              applications := apps,
              notifications := db.notifications ++
                [[("userEmail", jsGet application "userEmail"),
                  ("message", Value.str ("Your loan application for "
                     ++ valueToString (jsGet application "loanTitle") ++ " has been "
                     ++ valueToString (jsGet updates "status") ++ ".")),
                  ("type", Value.str (if jsGet updates "status" = Value.str "approved"
                     then "success" else "error")),
                  ("timestamp", Value.time now),
                  ("read", Value.bool false)]] }) := by
  simp only [updateApplicationStatus, hupd]
  rw [if_pos ⟨hmod, htr⟩, hfind]

/-- C1 (amended): on an existing application, a status update with a
non-empty new status that actually modifies the record appends exactly one
notification for the application's `userEmail`, typed `success` exactly for
`approved` and `error` otherwise, with message
`Your loan application for <loanTitle> has been <newStatus>.`, and the
stored application afterwards has the new status. -/
theorem updateStatus_notifies (db : DB) (id : Value) (s : String) (now : Nat) (app : Doc)
    (hfind : findOne db.applications [("_id", id)] = some app)
    (hs : s ≠ "")
    (hmod : 0 < (updateApplicationStatus db id [("status", Value.str s)] now).1.modifiedCount) :
    (updateApplicationStatus db id [("status", Value.str s)] now).2.notifications
      = db.notifications ++ [decisionNotification app s now] ∧
    findOne (updateApplicationStatus db id [("status", Value.str s)] now).2.applications
      [("_id", id)] = some (setField app "status" (Value.str s)) ∧
    getField (setField app "status" (Value.str s)) "status" = some (Value.str s) := by
  obtain ⟨pre, post, hds, hpre, hupd⟩ :=
    updateOne_of_findOne_some db.applications [("_id", id)] [("status", Value.str s)] app hfind
  have hid : getField app "_id" = some id := by
    have hm := (docMatches_iff _ _).mp (findOne_some_matches _ _ _ hfind)
    simpa using hm ("_id", id) (by simp)
  have hmatch2 : docMatches (setField app "status" (Value.str s)) [("_id", id)] = true := by
    rw [docMatches_iff]
    intro kv hkv
    rw [List.mem_singleton] at hkv
    subst hkv
    show getField (setField app "status" (Value.str s)) "_id" = some id
    rw [getField_setField_ne _ _ _ _ (by decide), hid]
  have hne : applySet app [("status", Value.str s)] ≠ app := by
    intro hcontra
    rw [updateApplicationStatus_fst, hupd] at hmod
    simp [hcontra] at hmod
  have hupd2 := hupd
  rw [if_neg hne] at hupd2
  have hfind2 : findOne (pre ++ applySet app [("status", Value.str s)] :: post)
      [("_id", id)] = some (setField app "status" (Value.str s)) := by
    show findOne (pre ++ setField app "status" (Value.str s) :: post) _ = _
    exact findOne_append_cons pre post _ _ hpre hmatch2
  have hjs : jsGet [("status", Value.str s)] "status" = Value.str s := by
    simp [jsGet, getField]
  have htr : truthyV (jsGet [("status", Value.str s)] "status") = true := by
    rw [hjs]; simp [truthyV, hs]
  have heq := updateApplicationStatus_eq db id [("status", Value.str s)] now
    ⟨true, 1, 1⟩ (pre ++ applySet app [("status", Value.str s)] :: post)
    (setField app "status" (Value.str s)) hupd2 Nat.one_pos htr hfind2
  have he : jsGet (setField app "status" (Value.str s)) "userEmail" = jsGet app "userEmail" := by
    unfold jsGet
    rw [getField_setField_ne _ _ _ _ (by decide)]
  have hl : jsGet (setField app "status" (Value.str s)) "loanTitle" = jsGet app "loanTitle" := by
    unfold jsGet
    rw [getField_setField_ne _ _ _ _ (by decide)]
  refine ⟨?_, ?_, getField_setField_self _ _ _⟩
  · simp only [heq, decisionNotification, he, hl, hjs, valueToString, Value.str.injEq]
  · rw [updateApplicationStatus_applications, hupd2]
    exact hfind2

/-- C1 counterexample: on a concrete store the inserted notification's
message reads `Your loan application for ...`, not the claimed
`Your application for ...`. -/
theorem updateStatus_message_ne_claim :
    0 < (updateApplicationStatus
        (DB.mk [] [] [[("_id", Value.str "a1"), ("userEmail", Value.str "u@x.com"),
          ("loanTitle", Value.str "Home Loan"), ("status", Value.str "pending")]] [] [])
        (Value.str "a1") [("status", Value.str "approved")] 5).1.modifiedCount ∧
    ((updateApplicationStatus
        (DB.mk [] [] [[("_id", Value.str "a1"), ("userEmail", Value.str "u@x.com"),
          ("loanTitle", Value.str "Home Loan"), ("status", Value.str "pending")]] [] [])
        (Value.str "a1") [("status", Value.str "approved")] 5).2.notifications.map
        fun d => getField d "message")
      = [some (Value.str "Your loan application for Home Loan has been approved.")] ∧
    Value.str "Your loan application for Home Loan has been approved."
      ≠ Value.str "Your application for Home Loan has been approved." := by
  decide

/-- Witness for C1 (amended) on a concrete rejected application. -/
theorem updateStatus_notifies_witness :
    (findOne (DB.mk [] [] [[("_id", Value.str "b1"), ("userEmail", Value.str "v@y.com"),
        ("loanTitle", Value.str "Car Loan"), ("status", Value.str "pending")]] []
        []).applications [("_id", Value.str "b1")]
      = some [("_id", Value.str "b1"), ("userEmail", Value.str "v@y.com"),
          ("loanTitle", Value.str "Car Loan"), ("status", Value.str "pending")] ∧
      ("rejected" : String) ≠ "" ∧
      0 < (updateApplicationStatus
        (DB.mk [] [] [[("_id", Value.str "b1"), ("userEmail", Value.str "v@y.com"),
          ("loanTitle", Value.str "Car Loan"), ("status", Value.str "pending")]] [] [])
        (Value.str "b1") [("status", Value.str "rejected")] 9).1.modifiedCount) ∧
    ((updateApplicationStatus
        (DB.mk [] [] [[("_id", Value.str "b1"), ("userEmail", Value.str "v@y.com"),
          ("loanTitle", Value.str "Car Loan"), ("status", Value.str "pending")]] [] [])
        (Value.str "b1") [("status", Value.str "rejected")] 9).2.notifications
      = (DB.mk [] [] [[("_id", Value.str "b1"), ("userEmail", Value.str "v@y.com"),
          ("loanTitle", Value.str "Car Loan"), ("status", Value.str "pending")]] []
          [] : DB).notifications
        ++ [decisionNotification [("_id", Value.str "b1"), ("userEmail", Value.str "v@y.com"),
              ("loanTitle", Value.str "Car Loan"), ("status", Value.str "pending")]
              "rejected" 9] ∧
    findOne (updateApplicationStatus
        (DB.mk [] [] [[("_id", Value.str "b1"), ("userEmail", Value.str "v@y.com"),
          ("loanTitle", Value.str "Car Loan"), ("status", Value.str "pending")]] [] [])
        (Value.str "b1") [("status", Value.str "rejected")] 9).2.applications
        [("_id", Value.str "b1")]
      = some (setField [("_id", Value.str "b1"), ("userEmail", Value.str "v@y.com"),
          ("loanTitle", Value.str "Car Loan"), ("status", Value.str "pending")]
          "status" (Value.str "rejected")) ∧
    getField (setField [("_id", Value.str "b1"), ("userEmail", Value.str "v@y.com"),
        ("loanTitle", Value.str "Car Loan"), ("status", Value.str "pending")]
        "status" (Value.str "rejected")) "status" = some (Value.str "rejected")) :=
  ⟨⟨by decide, by decide, by decide⟩,
   updateStatus_notifies
     (DB.mk [] [] [[("_id", Value.str "b1"), ("userEmail", Value.str "v@y.com"),
       ("loanTitle", Value.str "Car Loan"), ("status", Value.str "pending")]] [] [])
     (Value.str "b1") "rejected" 9
     [("_id", Value.str "b1"), ("userEmail", Value.str "v@y.com"),
       ("loanTitle", Value.str "Car Loan"), ("status", Value.str "pending")]
     (by decide) (by decide) (by decide)⟩

/-- C3 (amended): a successful loan creation with a truthy inserted id and a
non-empty string title broadcasts exactly one notification per stored user,
each typed `info`, carrying path `/loans/<insertedId>` and message
`New Loan Available: <title>`. -/
theorem createLoan_broadcast (db : DB) (loan : Doc) (newId : Value) (now : Nat)
    (title : String)
    (hid : truthyV newId = true)
    (htitle : getField loan "title" = some (Value.str title))
    (hne : title ≠ "") :
    (createLoan db loan newId now false).2.notifications
      = db.notifications ++ db.users.map (fun u =>
          [("userEmail", jsGet u "email"),
           ("message", Value.str ("New Loan Available: " ++ title)),
           ("type", Value.str "info"),
           ("path", Value.str ("/loans/" ++ valueToString newId)),
           ("timestamp", Value.time now),
           ("read", Value.bool false)]) ∧
    (createLoan db loan newId now false).2.notifications.length
      = db.notifications.length + db.users.length := by
  have hjs : jsGet loan "title" = Value.str title := by
    unfold jsGet
    rw [htitle]
    rfl
  have htr : truthyV (jsGet loan "title") = true := by
    rw [hjs]; simp [truthyV, hne]
  have htr2 : truthyV (Value.str title) = true := by simp [truthyV, hne]
  have hnotif : (fun u => loanNotification u loan newId now)
      = fun u => ([("userEmail", jsGet u "email"),
           ("message", Value.str ("New Loan Available: " ++ title)),
           ("type", Value.str "info"),
           ("path", Value.str ("/loans/" ++ valueToString newId)),
           ("timestamp", Value.time now),
           ("read", Value.bool false)] : Doc) := by
    funext u
    simp [loanNotification, htr2, hjs, valueToString]
  have h1 : (createLoan db loan newId now false).2.notifications
      = db.notifications ++ db.users.map (fun u =>
          [("userEmail", jsGet u "email"),
           ("message", Value.str ("New Loan Available: " ++ title)),
           ("type", Value.str "info"),
           ("path", Value.str ("/loans/" ++ valueToString newId)),
           ("timestamp", Value.time now),
           ("read", Value.bool false)]) := by
    simp only [createLoan]
    rw [if_pos (show truthyV (InsertOneResult.mk true newId).insertedId = true from hid)]
    by_cases hu : 0 < db.users.length
    · rw [if_pos hu, if_neg (by simp)]
      show db.notifications ++ db.users.map (fun u => loanNotification u loan newId now) = _
      rw [hnotif]
    · rw [if_neg hu]
      have hnil : db.users = [] :=
        List.length_eq_zero.mp (Nat.le_zero.mp (Nat.not_lt.mp hu))
      simp [hnil]
  exact ⟨h1, by rw [h1]; simp⟩

/-- C3 counterexample: on a concrete store the broadcast message reads
`New Loan Available: ...`, not the claimed `New loan available: ...`; and a
falsy (empty) title is replaced by `Check it out!` instead of being
interpolated. -/
theorem createLoan_message_ne_claim :
    ((createLoan (DB.mk [[("email", Value.str "u@x.com")]] [] [] [] [])
        [("title", Value.str "Home")] (Value.str "L1") 7 false).2.notifications.map
        fun d => getField d "message")
      = [some (Value.str "New Loan Available: Home")] ∧
    Value.str "New Loan Available: Home" ≠ Value.str "New loan available: Home" ∧
    ((createLoan (DB.mk [[("email", Value.str "u@x.com")]] [] [] [] [])
        [("title", Value.str "")] (Value.str "L1") 7 false).2.notifications.map
        fun d => getField d "message")
      = [some (Value.str "New Loan Available: Check it out!")] := by
  decide

/-- Witness for C3 (amended) on a store with two users. -/
theorem createLoan_broadcast_witness :
    (truthyV (Value.str "L1") = true ∧
      getField [("title", Value.str "Home")] "title" = some (Value.str "Home") ∧
      ("Home" : String) ≠ "") ∧
    ((createLoan (DB.mk [[("email", Value.str "u@x.com")], [("email", Value.str "v@y.com")]]
        [] [] [] []) [("title", Value.str "Home")] (Value.str "L1") 7 false).2.notifications
      = (DB.mk [[("email", Value.str "u@x.com")], [("email", Value.str "v@y.com")]]
          [] [] [] [] : DB).notifications
        ++ (DB.mk [[("email", Value.str "u@x.com")], [("email", Value.str "v@y.com")]]
            [] [] [] [] : DB).users.map (fun u =>
            [("userEmail", jsGet u "email"),
             ("message", Value.str ("New Loan Available: " ++ "Home")),
             ("type", Value.str "info"),
             ("path", Value.str ("/loans/" ++ valueToString (Value.str "L1"))),
             ("timestamp", Value.time 7),
             ("read", Value.bool false)]) ∧
    (createLoan (DB.mk [[("email", Value.str "u@x.com")], [("email", Value.str "v@y.com")]]
        [] [] [] []) [("title", Value.str "Home")] (Value.str "L1") 7
        false).2.notifications.length
      = (DB.mk [[("email", Value.str "u@x.com")], [("email", Value.str "v@y.com")]]
          [] [] [] [] : DB).notifications.length
        + (DB.mk [[("email", Value.str "u@x.com")], [("email", Value.str "v@y.com")]]
            [] [] [] [] : DB).users.length) :=
  ⟨⟨by decide, by decide, by decide⟩,
   createLoan_broadcast
     (DB.mk [[("email", Value.str "u@x.com")], [("email", Value.str "v@y.com")]] [] [] [] [])
     [("title", Value.str "Home")] (Value.str "L1") 7 "Home"
     (by decide) (by decide) (by decide)⟩

end LoanLink
